import Mathlib

/-!
Verification of the build-configuration shim headers of
swift-async-dns-resolver (Sources/CAsyncDNSResolver/include).

The two source files, `CAsyncDNSResolver.h` and `ares_build.h`, contain
only C preprocessor directives and two typedefs.  We embed them as lists
of directives and give a small-step semantics for the relevant fragment
of the C preprocessor: a macro table, a stack of conditional-inclusion
flags, and an ordered trace of the items a translation unit receives
(header inclusions, typedefs, and — were there any — runtime code).
-/

namespace AresShim

/-- A directive or top-level item of one of the shim headers.
`condNot`/`condYes`/`pendif` are the conditional-inclusion directives,
`pdefine` is an object-like macro definition (with optional body token),
`incSys` is an inclusion of a system header, `incLocal` an inclusion of
a header by relative path, `typeAlias tok n` is the line
`typedef TOK n;` where `TOK` is macro-expanded, and `cdecl` stands for
any other C declaration or statement (function, variable, executable
code) — the shim sources contain none, and the constructor exists so
that their absence is a falsifiable statement about the trace. -/
inductive Directive where
  | condNot (m : String)
  | condYes (m : String)
  | pendif
  | pdefine (m : String) (body : Option String)
  | incSys (h : String)
  | incLocal (h : String)
  | typeAlias (tok : String) (name : String)
  | cdecl (desc : String)
deriving DecidableEq

/-- An item emitted into the translation unit by expanding the headers:
a textual header inclusion, a typedef of `name` to the (macro-expanded)
underlying type, or runtime-executable code. -/
inductive Event where
  | inc (h : String)
  | td (name : String) (underlying : String)
  | code (desc : String)
deriving DecidableEq

/-- Preprocessor state: the macro table (name, optional body; newest
definition first) and the trace of emitted items, in order. -/
structure PPState where
  defs : List (String × Option String)
  events : List Event
deriving DecidableEq

/-- The empty initial state of a fresh translation unit. -/
def emptySt : PPState := ⟨[], []⟩

/-- Whether macro `m` is currently defined. -/
def isDef (st : PPState) (m : String) : Bool :=
  st.defs.any (fun p => p.1 == m)

/-- The body of macro `m`, if `m` is defined. -/
def lookupBody (st : PPState) (m : String) : Option (Option String) :=
  (st.defs.find? (fun p => p.1 == m)).map Prod.snd

/-- Macro-expand a single token: replace it by its body when it is a
defined object-like macro with a body, else leave it unchanged. -/
def expandTok (st : PPState) (tok : String) : String :=
  match lookupBody st tok with
  | some (some b) => b
  | _ => tok

/-- Execute one non-conditional directive in an active region. -/
def execDir (st : PPState) : Directive → PPState
  | .pdefine m b => ⟨(m, b) :: st.defs, st.events⟩
  | .incSys h => ⟨st.defs, st.events ++ [.inc h]⟩
  | .incLocal h => ⟨st.defs, st.events ++ [.inc h]⟩
  | .typeAlias tok n => ⟨st.defs, st.events ++ [.td n (expandTok st tok)]⟩
  | .cdecl d => ⟨st.defs, st.events ++ [.code d]⟩
  | _ => st

/-- One step of preprocessing: conditional directives manipulate the
stack of region flags; any other directive executes only when every
enclosing region is active. -/
def stepDir : PPState × List Bool → Directive → PPState × List Bool
  | (st, stk), .condYes m => (st, isDef st m :: stk)
  | (st, stk), .condNot m => (st, (! isDef st m) :: stk)
  | (st, stk), .pendif => (st, stk.tail)
  | (st, stk), d => if stk.all id then (execDir st d, stk) else (st, stk)

/-- Run a directive list from a given state with an empty region stack. -/
def runDirs (init : PPState) (ds : List Directive) : PPState :=
  (ds.foldl stepDir (init, [])).1

/-- The directive list of `ares_build.h`, transcribed from
`Sources/CAsyncDNSResolver/include/ares_build.h`.  The commented-out
`CARES_HAVE_WINDOWS_H` / `CARES_HAVE_WS2TCPIP_H` / `CARES_HAVE_WINSOCK2_H`
definitions are absent, exactly as in the file. -/
def ares_build_h : List Directive :=
  [ .condNot "__CARES_BUILD_H",
    .pdefine "__CARES_BUILD_H" none,
    .pdefine "CARES_TYPEOF_ARES_SOCKLEN_T" (some "socklen_t"),
    .pdefine "CARES_TYPEOF_ARES_SSIZE_T" (some "ssize_t"),
    .pdefine "CARES_HAVE_SYS_TYPES_H" none,
    .pdefine "CARES_HAVE_SYS_SOCKET_H" none,
    .condYes "CARES_HAVE_SYS_TYPES_H", .incSys "sys/types.h", .pendif,
    .condYes "CARES_HAVE_SYS_SOCKET_H", .incSys "sys/socket.h", .pendif,
    .condYes "CARES_HAVE_WINSOCK2_H", .incSys "winsock2.h", .pendif,
    .condYes "CARES_HAVE_WS2TCPIP_H", .incSys "ws2tcpip.h", .pendif,
    .condYes "CARES_HAVE_WINDOWS_H", .incSys "windows.h", .pendif,
    .typeAlias "CARES_TYPEOF_ARES_SOCKLEN_T" "ares_socklen_t",
    .typeAlias "CARES_TYPEOF_ARES_SSIZE_T" "ares_ssize_t",
    .pendif ]

/-- The directive list of `CAsyncDNSResolver.h`, transcribed from
`Sources/CAsyncDNSResolver/include/CAsyncDNSResolver.h`. -/
def CAsyncDNSResolver_h : List Directive :=
  [ .condNot "C_ASYNC_RESOLVER_H",
    .pdefine "C_ASYNC_RESOLVER_H" none,
    .incSys "arpa/inet.h",
    .incSys "netdb.h",
    .incLocal "ares_build.h",
    .incLocal "ares_config.h",
    .incLocal "../c-ares/include/ares.h",
    .pendif ]

/-- Textual inclusion of the one local header whose source is in this
repository fragment: an `incLocal "ares_build.h"` splices the directive
list of `ares_build.h` in place, exactly as the C preprocessor splices
the included file's text.  `ares_config.h` and `ares.h` are not part of
this fragment and stay as opaque inclusion events. -/
def spliceLocal (ds : List Directive) : List Directive :=
  ds.flatMap (fun d =>
    match d with
    | .incLocal h => if h == "ares_build.h" then ares_build_h else [d]
    | d => [d])

/-- The trace a fresh translation unit receives from
`#include "CAsyncDNSResolver.h"` (with `ares_build.h` spliced in). -/
def shimEvents : List Event :=
  (runDirs emptySt (spliceLocal CAsyncDNSResolver_h)).events

/-- Whether the trace contains an inclusion of header `h`. -/
def hasInc (evs : List Event) (h : String) : Bool :=
  evs.any (fun e =>
    match e with
    | .inc g => g == h
    | _ => false)

/-- Whether the trace contains a typedef of `n` to underlying type `u`. -/
def hasTd (evs : List Event) (n : String) (u : String) : Bool :=
  evs.any (fun e =>
    match e with
    | .td m v => m == n && v == u
    | _ => false)

/-- Index of the first inclusion of header `h` in the trace. -/
def incIdx (evs : List Event) (h : String) : Nat :=
  evs.findIdx (fun e =>
    match e with
    | .inc g => g == h
    | _ => false)

/-- Index of the first typedef introducing name `n` in the trace. -/
def tdIdx (evs : List Event) (n : String) : Nat :=
  evs.findIdx (fun e =>
    match e with
    | .td m _ => m == n
    | _ => false)

/-- Whether an event is a typedef. -/
def isTd (e : Event) : Bool :=
  match e with
  | .td _ _ => true
  | _ => false

/-- Whether an event is runtime-executable code. -/
def isCode (e : Event) : Bool :=
  match e with
  | .code _ => true
  | _ => false

/-- The family of configurations of `ares_build.h`: the header is a
build-generated configuration file, so its two `CARES_TYPEOF_...` macro
bodies and the presence of each `CARES_HAVE_...` definition vary with
the target platform (absent definitions appear in the source as
commented-out lines).  The shipped file is the instance at
`"socklen_t" "ssize_t" true true false false false`. -/
def ares_build_gen (sockT ssizeT : String)
    (haveSysTypes haveSysSocket haveWinsock2 haveWs2tcpip haveWindows : Bool) :
    List Directive :=
  [ .condNot "__CARES_BUILD_H",
    .pdefine "__CARES_BUILD_H" none,
    .pdefine "CARES_TYPEOF_ARES_SOCKLEN_T" (some sockT),
    .pdefine "CARES_TYPEOF_ARES_SSIZE_T" (some ssizeT) ]
  ++ (if haveSysTypes then [.pdefine "CARES_HAVE_SYS_TYPES_H" none] else [])
  ++ (if haveSysSocket then [.pdefine "CARES_HAVE_SYS_SOCKET_H" none] else [])
  ++ (if haveWinsock2 then [.pdefine "CARES_HAVE_WINSOCK2_H" none] else [])
  ++ (if haveWs2tcpip then [.pdefine "CARES_HAVE_WS2TCPIP_H" none] else [])
  ++ (if haveWindows then [.pdefine "CARES_HAVE_WINDOWS_H" none] else [])
  ++ [ .condYes "CARES_HAVE_SYS_TYPES_H", .incSys "sys/types.h", .pendif,
       .condYes "CARES_HAVE_SYS_SOCKET_H", .incSys "sys/socket.h", .pendif,
       .condYes "CARES_HAVE_WINSOCK2_H", .incSys "winsock2.h", .pendif,
       .condYes "CARES_HAVE_WS2TCPIP_H", .incSys "ws2tcpip.h", .pendif,
       .condYes "CARES_HAVE_WINDOWS_H", .incSys "windows.h", .pendif,
       .typeAlias "CARES_TYPEOF_ARES_SOCKLEN_T" "ares_socklen_t",
       .typeAlias "CARES_TYPEOF_ARES_SSIZE_T" "ares_ssize_t",
       .pendif ]

/-- An initial preprocessor state in which the `ares_build.h` include
guard may or may not already be set, and no other macro is defined; in
particular none of the Windows-detection macros is defined, matching
every translation unit of the shipped sources. -/
def buildSt (g : Bool) : PPState :=
  ⟨if g then [("__CARES_BUILD_H", none)] else [], []⟩

/-- A compile-time platform description: which headers exist on the
target and which type names resolve there. -/
structure Platform where
  avail : List String
  types : List String
deriving DecidableEq

/-- Whether a trace compiles on a platform: every included header must
exist and every typedef's underlying type must resolve.  Runtime code,
were there any, is never a compile-time failure. -/
def compileOK (p : Platform) (evs : List Event) : Bool :=
  evs.all (fun e =>
    match e with
    | .inc h => p.avail.contains h
    | .td _ u => p.types.contains u
    | .code _ => true)

/-- A POSIX target consistent with the shipped macro settings: the
POSIX networking headers and the vendored headers exist, and the
socket types resolve. -/
def posixPlatform : Platform :=
  ⟨["arpa/inet.h", "netdb.h", "sys/types.h", "sys/socket.h",
    "ares_config.h", "../c-ares/include/ares.h"],
   ["socklen_t", "ssize_t"]⟩

/-- A target inconsistent with the shipped macro settings:
`CARES_HAVE_SYS_SOCKET_H` is defined but the platform has no
`sys/socket.h`. -/
def noSocketPlatform : Platform :=
  ⟨["arpa/inet.h", "netdb.h", "sys/types.h",
    "ares_config.h", "../c-ares/include/ares.h"],
   ["socklen_t", "ssize_t"]⟩

/-- Whether string `s` begins with string `p`. -/
def beginsWith (p s : String) : Bool :=
  s.data.take p.data.length == p.data

/-- C1: expanding the shim header defines both `ares_socklen_t` and
`ares_ssize_t` strictly before `ares.h` is textually included, so that
header sees both aliases already defined. -/
theorem typedefs_precede_ares_h :
    hasTd shimEvents "ares_socklen_t" "socklen_t" = true
  ∧ hasTd shimEvents "ares_ssize_t" "ssize_t" = true
  ∧ hasInc shimEvents "../c-ares/include/ares.h" = true
  ∧ tdIdx shimEvents "ares_socklen_t" < incIdx shimEvents "../c-ares/include/ares.h"
  ∧ tdIdx shimEvents "ares_ssize_t" < incIdx shimEvents "../c-ares/include/ares.h" := by
  decide

/-- C2: the typedefs the shim emits are exactly an alias of
`ares_socklen_t` to `socklen_t` and of `ares_ssize_t` to `ssize_t`,
the platform socket types. -/
theorem typedef_underlying_types :
    List.filter isTd shimEvents =
      [Event.td "ares_socklen_t" "socklen_t", Event.td "ares_ssize_t" "ssize_t"] := by
  decide

/-- C3: whatever the state of the include guard, expanding
`ares_build.h` as shipped includes none of `winsock2.h`, `ws2tcpip.h`
or `windows.h`, and defines none of the three `CARES_HAVE_...` Windows
macros; the full shim expansion likewise includes no Windows header. -/
theorem windows_headers_never_included : ∀ g : Bool,
    hasInc (runDirs (buildSt g) ares_build_h).events "winsock2.h" = false
  ∧ hasInc (runDirs (buildSt g) ares_build_h).events "ws2tcpip.h" = false
  ∧ hasInc (runDirs (buildSt g) ares_build_h).events "windows.h" = false
  ∧ isDef (runDirs (buildSt g) ares_build_h) "CARES_HAVE_WINSOCK2_H" = false
  ∧ isDef (runDirs (buildSt g) ares_build_h) "CARES_HAVE_WS2TCPIP_H" = false
  ∧ isDef (runDirs (buildSt g) ares_build_h) "CARES_HAVE_WINDOWS_H" = false
  ∧ hasInc shimEvents "winsock2.h" = false
  ∧ hasInc shimEvents "ws2tcpip.h" = false
  ∧ hasInc shimEvents "windows.h" = false := by
  decide

/-- C4: the underlying type of each alias is whatever the
configuration's `CARES_TYPEOF_...` macro body says, so different
platform configurations select different underlying types; the shipped
file is one instance of that family, and a configuration with other
bodies yields a different trace. -/
theorem underlying_types_chosen_per_config :
    (∀ s t : String,
      (runDirs emptySt (ares_build_gen s t true true false false false)).events =
        [Event.inc "sys/types.h", Event.inc "sys/socket.h",
         Event.td "ares_socklen_t" s, Event.td "ares_ssize_t" t])
  ∧ ares_build_gen "socklen_t" "ssize_t" true true false false false = ares_build_h
  ∧ (runDirs emptySt
        (ares_build_gen "socklen_t" "ssize_t" true true false false false)).events ≠
      (runDirs emptySt
        (ares_build_gen "int" "long" true true false false false)).events :=
  ⟨fun _ _ => rfl, rfl, by decide⟩

/-- C5: across all configurations of the five `CARES_HAVE_...` flags,
`sys/types.h` is included iff `CARES_HAVE_SYS_TYPES_H` is defined,
`sys/socket.h` iff `CARES_HAVE_SYS_SOCKET_H` is defined, and
`winsock2.h` iff `CARES_HAVE_WINSOCK2_H` is defined. -/
theorem conditional_system_includes :
    ∀ f1 f2 f3 f4 f5 : Bool,
      hasInc (runDirs emptySt
        (ares_build_gen "socklen_t" "ssize_t" f1 f2 f3 f4 f5)).events "sys/types.h" = f1
    ∧ hasInc (runDirs emptySt
        (ares_build_gen "socklen_t" "ssize_t" f1 f2 f3 f4 f5)).events "sys/socket.h" = f2
    ∧ hasInc (runDirs emptySt
        (ares_build_gen "socklen_t" "ssize_t" f1 f2 f3 f4 f5)).events "winsock2.h" = f3 := by
  decide

/-- C6: in the expansion of the shim header, the configuration headers
and the socket-type definitions they pull in — `sys/types.h`,
`sys/socket.h`, `ares_config.h`, and the two typedefs from
`ares_build.h` — all appear strictly before `ares.h`. -/
theorem config_headers_precede_ares_h :
    hasInc shimEvents "sys/types.h" = true
  ∧ hasInc shimEvents "sys/socket.h" = true
  ∧ hasInc shimEvents "ares_config.h" = true
  ∧ incIdx shimEvents "sys/types.h" < incIdx shimEvents "../c-ares/include/ares.h"
  ∧ incIdx shimEvents "sys/socket.h" < incIdx shimEvents "../c-ares/include/ares.h"
  ∧ incIdx shimEvents "ares_config.h" < incIdx shimEvents "../c-ares/include/ares.h"
  ∧ tdIdx shimEvents "ares_socklen_t" < incIdx shimEvents "../c-ares/include/ares.h"
  ∧ tdIdx shimEvents "ares_ssize_t" < incIdx shimEvents "../c-ares/include/ares.h" := by
  decide

/-- C7: the shim contributes no runtime-executable content: the trace
holds only header inclusions and exactly two typedefs, and no code
event of any kind. -/
theorem shim_is_static_only :
    shimEvents.all (fun e => ! isCode e) = true
  ∧ (List.filter isTd shimEvents).length = 2
  ∧ (List.filter isCode shimEvents).length = 0 := by
  decide

/-- C8: under macro settings consistent with a POSIX target the shim
expansion compiles with no failure; on a platform inconsistent with
the shipped macros (no `sys/socket.h`) it fails at compile time; and in
every case the trace holds no runtime-executable content, so there is
no runtime error behaviour. -/
theorem failure_only_at_compile_time :
    compileOK posixPlatform shimEvents = true
  ∧ compileOK noSocketPlatform shimEvents = false
  ∧ shimEvents.all (fun e => ! isCode e) = true := by
  decide

/-- C9: inclusion is idempotent thanks to the include guards: expanding
either header a second or third time adds nothing, and the final state
(declarations and macro table) equals that of a single inclusion. -/
theorem include_guards_idempotent :
    runDirs emptySt (spliceLocal (CAsyncDNSResolver_h ++ CAsyncDNSResolver_h)) =
      runDirs emptySt (spliceLocal CAsyncDNSResolver_h)
  ∧ runDirs emptySt
      (spliceLocal (CAsyncDNSResolver_h ++ CAsyncDNSResolver_h ++ CAsyncDNSResolver_h)) =
      runDirs emptySt (spliceLocal CAsyncDNSResolver_h)
  ∧ runDirs emptySt (ares_build_h ++ ares_build_h) = runDirs emptySt ares_build_h := by
  decide

/-- C10: every macro `ares_build.h` defines other than its own include
guard begins with `CARES_`; the table after expansion holds exactly the
guard and the four `CARES_...` configuration macros. -/
theorem cares_macro_namespace :
    ((runDirs emptySt ares_build_h).defs.all
      (fun q => q.1 == "__CARES_BUILD_H" || beginsWith "CARES_" q.1)) = true
  ∧ isDef (runDirs emptySt ares_build_h) "CARES_TYPEOF_ARES_SOCKLEN_T" = true
  ∧ isDef (runDirs emptySt ares_build_h) "CARES_TYPEOF_ARES_SSIZE_T" = true
  ∧ isDef (runDirs emptySt ares_build_h) "CARES_HAVE_SYS_TYPES_H" = true
  ∧ isDef (runDirs emptySt ares_build_h) "CARES_HAVE_SYS_SOCKET_H" = true
  ∧ (runDirs emptySt ares_build_h).defs.length = 5 := by
  decide

end AresShim
